import Mathlib

/-!
Verification of the nanoKontroller bridge (nanoKontroller.py): a shallow
embedding of its data model (control enumeration, LED support set, action
variants, config compiler, event dispatch loop) together with theorems about
the behaviour claimed in its specification. Python dictionaries are modelled
as insertion-ordered association lists with overwrite-on-insert, exceptions
as `Except PyError`, and side effects (MIDI feedback, uinput writes, mixer
calls, subprocess calls, log lines) as an explicit effect trace.
-/

deriving instance DecidableEq for Except

/-- Python `dict` insertion: overwrite the value in place when the key exists,
append at the end otherwise (insertion-ordered semantics). -/
def dictInsert {κ α : Type} [DecidableEq κ] (k : κ) (v : α) :
    List (κ × α) → List (κ × α)
  | [] => [(k, v)]
  | (k', v') :: rest =>
      if k' = k then (k, v) :: rest else (k', v') :: dictInsert k v rest

/-- Python `dict` lookup (`d[k]` / `k in d`): first binding of the key. -/
def dictGet {κ α : Type} [DecidableEq κ] (k : κ) : List (κ × α) → Option α
  | [] => none
  | (k', v) :: rest => if k' = k then some v else dictGet k rest

/-- Helper for `splitFirst`: scan for the first separator character. -/
def splitFirstGo (sep : Char) (acc : List Char) :
    List Char → String × Option String
  | [] => (String.mk acc.reverse, none)
  | c :: rest =>
      if c = sep then (String.mk acc.reverse, some (String.mk rest))
      else splitFirstGo sep (c :: acc) rest

/-- Python `s.split(sep, 1)`: the part before the first separator, and
(if the separator occurs) the remainder after it. -/
def splitFirst (sep : Char) (s : String) : String × Option String :=
  splitFirstGo sep [] s.toList

/-- Python `s.endswith(suffix)`. -/
def endswith (s suffix : String) : Bool :=
  suffix.toList.isSuffixOf s.toList

/-- Digit-string accumulator used by `parseFloat`. -/
def digitsToNatGo (acc : Nat) : List Char → Option Nat
  | [] => some acc
  | c :: rest =>
      if c.isDigit then digitsToNatGo (acc * 10 + (c.toNat - 48)) rest
      else none

/-- Python `float(s)` on the non-negative decimal literals the config grammar
uses: an optional single decimal point between digit runs; anything else
fails (a `ValueError`), modelled as `none`. -/
def parseFloat (s : String) : Option Rat :=
  match splitFirst '.' s with
  | (intPart, none) =>
      if intPart.toList = [] then none
      else (digitsToNatGo 0 intPart.toList).map (fun n => (n : Rat))
  | (intPart, some fracPart) =>
      if intPart.toList = [] ∧ fracPart.toList = [] then none
      else if '.' ∈ fracPart.toList then none
      else
        match digitsToNatGo 0 intPart.toList, digitsToNatGo 0 fracPart.toList with
        | some ip, some fp =>
            some ((ip : Rat) + (fp : Rat) / ((10 : Rat) ^ fracPart.toList.length))
        | _, _ => none

/-- The `nano_keys` enumeration: control name to MIDI control id. -/
def nano_keys : List (String × Nat) :=
  [("TRACK_PREV", 58), ("TRACK_NEXT", 59), ("CYCLE", 46),
   ("MARKER_SET", 60), ("MARKER_PREV", 61), ("MARKER_NEXT", 62),
   ("PREV", 43), ("NEXT", 44), ("STOP", 42), ("PLAY", 41), ("RECORD", 45),
   ("PARAM1_SOLO", 32), ("PARAM2_SOLO", 33), ("PARAM3_SOLO", 34),
   ("PARAM4_SOLO", 35), ("PARAM5_SOLO", 36), ("PARAM6_SOLO", 37),
   ("PARAM7_SOLO", 38), ("PARAM8_SOLO", 39),
   ("PARAM1_MUTE", 48), ("PARAM2_MUTE", 49), ("PARAM3_MUTE", 50),
   ("PARAM4_MUTE", 51), ("PARAM5_MUTE", 52), ("PARAM6_MUTE", 53),
   ("PARAM7_MUTE", 54), ("PARAM8_MUTE", 55),
   ("PARAM1_RECORD", 64), ("PARAM2_RECORD", 65), ("PARAM3_RECORD", 66),
   ("PARAM4_RECORD", 67), ("PARAM5_RECORD", 68), ("PARAM6_RECORD", 69),
   ("PARAM7_RECORD", 70), ("PARAM8_RECORD", 71),
   ("PARAM1_SLIDER", 0), ("PARAM2_SLIDER", 1), ("PARAM3_SLIDER", 2),
   ("PARAM4_SLIDER", 3), ("PARAM5_SLIDER", 4), ("PARAM6_SLIDER", 5),
   ("PARAM7_SLIDER", 6), ("PARAM8_SLIDER", 7),
   ("PARAM1_KNOB", 16), ("PARAM2_KNOB", 17), ("PARAM3_KNOB", 18),
   ("PARAM4_KNOB", 19), ("PARAM5_KNOB", 20), ("PARAM6_KNOB", 21),
   ("PARAM7_KNOB", 22), ("PARAM8_KNOB", 23)]

/-- The `led_support` member of `nano_keys`: control ids of LED-capable
controls (every button; sliders and knobs have no LED). -/
def led_support : List Nat :=
  [58, 59, 46, 60, 61, 62, 43, 44, 42, 41, 45,
   32, 33, 34, 35, 36, 37, 38, 39,
   48, 49, 50, 51, 52, 53, 54, 55,
   64, 65, 66, 67, 68, 69, 70, 71]

/-- A PulseAudio device handle (sink or source): its name and mute state. -/
structure PADevice where
  name : String
  mute : Nat
  deriving DecidableEq

/-- A PulseAudio sink-input (application stream) handle. -/
structure PAStream where
  index : Nat
  name : String
  deriving DecidableEq

/-- The mixer's live inventory at one instant: sinks, sources, and
application streams, as enumerated by `pactl`. -/
structure World where
  sinks : List PADevice
  sources : List PADevice
  sinkInputs : List PAStream
  deriving DecidableEq

/-- The Python exceptions the program can raise or catch. -/
inductive PyError where
  | keyError
  | valueError
  | attributeError
  | pulseError
  deriving DecidableEq

/-- Observable side effects of the program, in execution order. -/
inductive Effect where
  | midiSend (control : Nat) (value : Nat)
  | uinputWrite (code : Nat) (state : Nat)
  | uinputSyn
  | pactlMute (device : String) (muted : Nat)
  | pactlVolumeSetAll (target : String) (vol : Rat)
  | subprocessCall (cmd : String)
  | logWarning (msg : String)
  | logError (msg : String)
  deriving DecidableEq

/-- `nano_led_handler.set_led`: for LED-capable controls, normalize the value
(anything positive becomes full brightness 127, else 0) and send one
control-change feedback message; otherwise no message at all. -/
def set_led (led : Nat) (value : Nat) : List Effect :=
  if led ∈ led_support then
    [Effect.midiSend led (if value > 0 then 127 else 0)]
  else []

/-- An item of a parsed Python format template: a literal character or a
replacement field. -/
inductive FmtItem where
  | lit (c : Char)
  | field (name : String)
  deriving DecidableEq

/-- The opening brace character. -/
def lbrace : Char := Char.ofNat 123

/-- The closing brace character. -/
def rbrace : Char := Char.ofNat 125

/-- Parser mode: outside any replacement field, or inside one with the
field-name characters read so far (in reverse). -/
inductive FmtMode where
  | normal
  | inField (acc : List Char)

/-- Parse a Python format template: doubled braces are escapes, an opening
brace starts a replacement field read up to its closing brace, a bare
closing brace or an unterminated field is an error (ValueError), modelled
as `none`. -/
def fmtParseGo : FmtMode → List Char → Option (List FmtItem)
  | FmtMode.normal, [] => some []
  | FmtMode.inField _, [] => none
  | FmtMode.inField acc, c :: rest =>
      if c = rbrace then
        (fmtParseGo FmtMode.normal rest).map
          (FmtItem.field (String.mk acc.reverse) :: ·)
      else fmtParseGo (FmtMode.inField (c :: acc)) rest
  | FmtMode.normal, c :: rest =>
      if c = lbrace then
        match rest with
        | [] => none
        | c2 :: rest2 =>
            if c2 = lbrace then
              (fmtParseGo FmtMode.normal rest2).map (FmtItem.lit lbrace :: ·)
            else if c2 = rbrace then
              (fmtParseGo FmtMode.normal rest2).map (FmtItem.field "" :: ·)
            else fmtParseGo (FmtMode.inField [c2]) rest2
      else if c = rbrace then
        match rest with
        | [] => none
        | c2 :: rest2 =>
            if c2 = rbrace then
              (fmtParseGo FmtMode.normal rest2).map (FmtItem.lit rbrace :: ·)
            else none
      else (fmtParseGo FmtMode.normal rest).map (FmtItem.lit c :: ·)

/-- Parse a template starting outside any replacement field. -/
def fmtParseNormal (l : List Char) : Option (List FmtItem) :=
  fmtParseGo FmtMode.normal l

/-- Substitute one template item given the two keyword arguments
`NK_KEY_ID = key` and `NK_KEY_VALUE = value`; an unknown field name is a
KeyError, modelled as `none`. -/
def fmtSubst (key value : Nat) : FmtItem → Option (List Char)
  | FmtItem.lit c => some [c]
  | FmtItem.field nm =>
      if nm = "NK_KEY_ID" then some (Nat.repr key).toList
      else if nm = "NK_KEY_VALUE" then some (Nat.repr value).toList
      else none

/-- Fill every item of a parsed template; fails as soon as one item fails. -/
def fmtFill (key value : Nat) : List FmtItem → Option (List Char)
  | [] => some []
  | it :: rest =>
      match fmtSubst key value it with
      | none => none
      | some s =>
          match fmtFill key value rest with
          | none => none
          | some r => some (s ++ r)

/-- Python `command.format(NK_KEY_ID = key, NK_KEY_VALUE = value)`: parse the
template (a malformed one raises ValueError), then fill each replacement
field (an unknown field raises KeyError). -/
def pyFormat (command : String) (key value : Nat) : Except PyError String :=
  match fmtParseNormal command.toList with
  | none => Except.error PyError.valueError
  | some items =>
      match fmtFill key value items with
      | none => Except.error PyError.keyError
      | some chars => Except.ok (String.mk chars)

/-- The five action variants held in the action table. `mute` carries its
stored `muted` state (initialized from the device at construction),
`volume` and `volumestr` carry their `max_level`, and the handles captured
at build time. -/
inductive nano_action where
  | evdev (evdev_action : Nat)
  | mute (audio_device : PADevice) (muted : Nat)
  | volume (audio_device : PADevice) (max_level : Rat)
  | volumestr (stream : PAStream) (max_level : Rat)
  | exec (command : String)
  deriving DecidableEq

/-- The `action(key, value)` method of each variant. `w` is the mixer's
current inventory (a vanished stream makes the pulse call raise); `msgValue`
is the module-global `msg.value` that the two volume variants read instead
of their `value` parameter. Returns the updated action (the mute toggle
mutates its stored state) and the effect trace, or the raised exception. -/
def nano_action.action (a : nano_action) (w : World)
    (msgValue key value : Nat) : Except PyError (nano_action × List Effect) :=
  match a with
  | nano_action.evdev evdev_action =>
      Except.ok (a, Effect.uinputWrite evdev_action (value / 126) ::
        (set_led key value ++ [Effect.uinputSyn]))
  | nano_action.mute audio_device muted =>
      if value = 127 then
        let m := if muted = 0 then 1 else 0
        Except.ok (nano_action.mute audio_device m,
          set_led key m ++ [Effect.pactlMute audio_device.name m])
      else Except.ok (a, [])
  | nano_action.volume audio_device max_level =>
      Except.ok (a, [Effect.pactlVolumeSetAll audio_device.name
        (((msgValue : Rat) / 127) * (max_level / 100))])
  | nano_action.volumestr stream max_level =>
      if stream ∈ w.sinkInputs then
        Except.ok (a, [Effect.pactlVolumeSetAll stream.name
          (((msgValue : Rat) / 127) * (max_level / 100))])
      else Except.error PyError.pulseError
  | nano_action.exec command =>
      match pyFormat command key value with
      | Except.ok filled => Except.ok (a, [Effect.subprocessCall filled])
      | Except.error err => Except.error err

/-- `get_audio_devices`: walk the mixer's sinks then sources; any whose name
appears in the corresponding name-to-alias map is bound under its alias. -/
def get_audio_devices (w : World) (sources sinks : List (String × String)) :
    List (String × PADevice) :=
  let afterSinks := w.sinks.foldl (fun acc sink =>
    match dictGet sink.name sinks with
    | some al => dictInsert al sink acc
    | none => acc) []
  w.sources.foldl (fun acc source =>
    match dictGet source.name sources with
    | some al => dictInsert al source acc
    | none => acc) afterSinks

/-- `get_sink_inputs`: walk the mixer's application streams; for each
configured suffix (in insertion order) whose text ends the stream's name,
bind the stream under that suffix's alias. -/
def get_sink_inputs (w : World) (streams : List (String × String)) :
    List (String × PAStream) :=
  w.sinkInputs.foldl (fun acc item =>
    streams.foldl (fun acc2 sa =>
      if endswith item.name sa.1 then dictInsert sa.2 item acc2 else acc2)
      acc) []

/-- An INI config as `configparser` presents it: whether reading the file
succeeded, and the sections with their option/value pairs in file order. -/
structure IniConfig where
  readOk : Bool
  sections : List (String × List (String × String))
  deriving DecidableEq

/-- `config_object.sections()`. -/
def IniConfig.sectionNames (cfg : IniConfig) : List String :=
  cfg.sections.map Prod.fst

/-- `config_object.options(s)` with `config_object.get(s, o)` zipped in:
the option/value pairs of a section, empty when the section is missing. -/
def IniConfig.options (cfg : IniConfig) (s : String) :
    List (String × String) :=
  (dictGet s cfg.sections).getD []

/-- The `sources = {...}` / `streams = {...}` / `sinks = {...}` loops of
`parse_config`: invert a section's alias = name pairs into a
name-to-alias dictionary. -/
def buildAliasDict (opts : List (String × String)) : List (String × String) :=
  opts.foldl (fun acc av => dictInsert av.2 av.1 acc) []

/-- State threaded through the keymap loop: the action map under
construction and the log lines emitted so far. -/
def ParseState := List (Nat × nano_action) × List Effect

/-- One iteration of `parse_config`'s keymap loop for the entry
`keyname = descriptor`: look up the control name (unknown names are logged
and skipped), split the descriptor on the first slash, and build the
matching action. `mute` and `volume` index `audio_devices` directly, so an
unresolved device alias raises KeyError; a bad max level raises ValueError;
an unresolved `volumestr` stream alias is caught, logged and skipped; a
`volumestr` descriptor with a second slash falls through silently. -/
def parse_entry (audio_devices : List (String × PADevice))
    (sink_input_devices : List (String × PAStream))
    (ecodes : List (String × Nat)) (st : ParseState)
    (entry : String × String) : Except PyError ParseState :=
  match dictGet entry.1 nano_keys with
  | none =>
      Except.ok (st.1,
        st.2 ++ [Effect.logWarning ("parse_config: No such key " ++ entry.1)])
  | some keycode =>
      match splitFirst '/' entry.2 with
      | (a0, none) =>
          match dictGet a0 ecodes with
          | none =>
              Except.ok (st.1,
                st.2 ++ [Effect.logWarning ("parse_config: Unknown evdev key " ++ a0)])
          | some code =>
              Except.ok (dictInsert keycode (nano_action.evdev code) st.1, st.2)
      | (a0, some a1) =>
          if a0 = "mute" then
            match dictGet a1 audio_devices with
            | none => Except.error PyError.keyError
            | some dev =>
                Except.ok
                  (dictInsert keycode (nano_action.mute dev dev.mute) st.1, st.2)
          else if a0 = "volume" then
            match splitFirst '/' a1 with
            | (v0, none) =>
                match dictGet v0 audio_devices with
                | none => Except.error PyError.keyError
                | some dev =>
                    Except.ok
                      (dictInsert keycode (nano_action.volume dev 100) st.1, st.2)
            | (v0, some v1) =>
                match dictGet v0 audio_devices with
                | none => Except.error PyError.keyError
                | some dev =>
                    match parseFloat v1 with
                    | none => Except.error PyError.valueError
                    | some ml =>
                        Except.ok
                          (dictInsert keycode (nano_action.volume dev ml) st.1, st.2)
          else if a0 = "volumestr" then
            match splitFirst '/' a1 with
            | (_, none) =>
                match dictGet a1 sink_input_devices with
                | none =>
                    Except.ok (st.1,
                      st.2 ++ [Effect.logWarning ("parse_config: Unknown stream " ++ a1)])
                | some stream =>
                    Except.ok
                      (dictInsert keycode (nano_action.volumestr stream 100) st.1, st.2)
            | (_, some _) => Except.ok st
          else if a0 = "exec" then
            Except.ok (dictInsert keycode (nano_action.exec a1) st.1, st.2)
          else
            Except.ok (st.1,
              st.2 ++ [Effect.logWarning ("Unknown action " ++ entry.2)])

/-- The keymap loop of `parse_config`: process each entry in file order,
propagating any raised exception. -/
def processKeymap (audio_devices : List (String × PADevice))
    (sink_input_devices : List (String × PAStream))
    (ecodes : List (String × Nat)) :
    List (String × String) → ParseState → Except PyError ParseState
  | [], st => Except.ok st
  | entry :: rest, st =>
      match parse_entry audio_devices sink_input_devices ecodes st entry with
      | Except.error e => Except.error e
      | Except.ok st' => processKeymap audio_devices sink_input_devices ecodes rest st'

/-- `parse_config`: returns `none` (with an error log) when the config file
cannot be read or has no keymap section, otherwise resolves aliases against
the mixer inventory `w` and runs the keymap loop; an exception escaping the
loop propagates to the caller. `ecodes` is the evdev key-code table passed
in as the `evdev` argument. -/
def parse_config (cfg : IniConfig) (ecodes : List (String × Nat)) (w : World) :
    Except PyError (Option (List (Nat × nano_action)) × List Effect) :=
  if cfg.readOk = false then
    Except.ok (none, [Effect.logError "parse_config: Failed to load config file"])
  else if ("keymap" ∈ cfg.sectionNames) = false then
    Except.ok (none, [Effect.logError "parse_config: Config has no keymap section"])
  else
    let sources := buildAliasDict (cfg.options "audioinputs")
    let streams := buildAliasDict (cfg.options "streams")
    let sinks := buildAliasDict (cfg.options "audiooutputs")
    let audio_devices := get_audio_devices w sources sinks
    let sink_input_devices := get_sink_inputs w streams
    let warn0 : List Effect :=
      if sink_input_devices = [] then
        [Effect.logWarning "get_sink_inputs: No streams found"]
      else []
    match processKeymap audio_devices sink_input_devices ecodes
        (cfg.options "keymap") ([], warn0) with
    | Except.error e => Except.error e
    | Except.ok st => Except.ok (some st.1, st.2)

/-- A MIDI message as read from the input port. -/
inductive MidiMsg where
  | control_change (control : Nat) (value : Nat)
  | other (type : String)
  deriving DecidableEq

/-- One iteration of the main loop for message `msg` with the mixer inventory
currently `w`. Non-control-change messages are discarded. For a
control-change, the membership test `msg.control in action_map.keys()` runs
outside any `try`, so when `action_map` is `None` (a failed build) it raises
AttributeError. A mapped control's action is invoked inside `try`; on any
exception a warning is logged and the table is rebuilt by `parse_config`
(whose own exceptions are uncaught). -/
def loopStep (cfg : IniConfig) (ecodes : List (String × Nat)) (w : World)
    (am : Option (List (Nat × nano_action))) (msg : MidiMsg) :
    Except PyError (Option (List (Nat × nano_action)) × List Effect) :=
  match msg with
  | MidiMsg.other _ => Except.ok (am, [])
  | MidiMsg.control_change c v =>
      match am with
      | none => Except.error PyError.attributeError
      | some table =>
          match dictGet c table with
          | none => Except.ok (some table, [])
          | some a =>
              match a.action w v c v with
              | Except.ok res =>
                  Except.ok (some (dictInsert c res.1 table), res.2)
              | Except.error _ =>
                  match parse_config cfg ecodes w with
                  | Except.error e => Except.error e
                  | Except.ok res =>
                      Except.ok (res.1,
                        Effect.logWarning
                          "No stream found... reparse config to get the new ones... "
                          :: res.2)

/-- The main loop: fold `loopStep` over the incoming messages, each paired
with the mixer inventory at the time it arrives; stops only when an
uncaught exception escapes. Returns the final action map. -/
def runLoop (cfg : IniConfig) (ecodes : List (String × Nat)) :
    Option (List (Nat × nano_action)) → List (World × MidiMsg) →
    Except PyError (Option (List (Nat × nano_action)))
  | am, [] => Except.ok am
  | am, wm :: rest =>
      match loopStep cfg ecodes wm.1 am wm.2 with
      | Except.error e => Except.error e
      | Except.ok res => runLoop cfg ecodes res.1 rest

/-- The module-level program after argument parsing: build the initial table
from the config against the startup inventory `w0`, then run the loop. -/
def nanoKontrollerMain (cfg : IniConfig) (ecodes : List (String × Nat))
    (w0 : World) (events : List (World × MidiMsg)) :
    Except PyError (Option (List (Nat × nano_action))) :=
  match parse_config cfg ecodes w0 with
  | Except.error e => Except.error e
  | Except.ok res => runLoop cfg ecodes res.1 events

/-- `get_youtube_music_streams_index`: the stream's index when its name ends
with the literal suffix used in the source. -/
def get_youtube_music_streams_index (stream : PAStream) : Option Nat :=
  if endswith stream.name "YouTube Music" then some stream.index else none

/-- `get_youtube_streams_index`: the stream's index when its name ends with
the literal suffix used in the source. -/
def get_youtube_streams_index (stream : PAStream) : Option Nat :=
  if endswith stream.name "- YouTube" then some stream.index else none

/-- The list-streams CLI branch: collect both index lists over the live
streams, filter out the `None` entries, print them and exit 0. Returns the
two printed lists and the exit status. -/
def list_streams_mode (w : World) : List Nat × List Nat × Nat :=
  let youtube_streams :=
    (w.sinkInputs.map get_youtube_streams_index).filterMap id
  let youtube_music_streams :=
    (w.sinkInputs.map get_youtube_music_streams_index).filterMap id
  (youtube_streams, youtube_music_streams, 0)

/-- Iterated invocation of a mute action: the stored mute state after the
action has been invoked once per listed value (the mute variant never
raises, so only the `ok` branch occurs). -/
def muteSeq (w : World) (mv : Nat) (dev : PADevice) (key : Nat) :
    Nat → List Nat → Nat
  | m, [] => m
  | m, v :: rest =>
      match (nano_action.mute dev m).action w mv key v with
      | Except.ok (nano_action.mute _ m', _) => muteSeq w mv dev key m' rest
      | _ => m

theorem muteSeq_cons (w : World) (mv : Nat) (dev : PADevice) (key m v : Nat)
    (rest : List Nat) :
    muteSeq w mv dev key m (v :: rest) =
      muteSeq w mv dev key
        (if v = 127 then (if m = 0 then 1 else 0) else m) rest := by
  by_cases h : v = 127 <;> simp [muteSeq, nano_action.action, h]

theorem muteSeq_eval (w : World) (mv : Nat) (dev : PADevice) (key : Nat)
    (m : Nat) (hm : m ≤ 1) (vs : List Nat) :
    muteSeq w mv dev key m vs =
      if vs.count 127 % 2 = 0 then m else (if m = 0 then 1 else 0) := by
  induction vs generalizing m with
  | nil => simp [muteSeq]
  | cons v rest ih =>
    rw [muteSeq_cons]
    by_cases hv : v = 127
    · subst hv
      rw [if_pos rfl, ih (if m = 0 then 1 else 0) (by split <;> omega),
        List.count_cons_self]
      interval_cases m <;>
        rcases Nat.mod_two_eq_zero_or_one (rest.count 127) with h | h <;>
        split_ifs <;> first | contradiction | omega
    · rw [if_neg hv, ih m hm,
        List.count_cons_of_ne (fun hh => hv hh.symm)]

/-- C3 (code bug): the claim says every SetVolume invocation sets the volume
to (value / 127) * (maxLevel / 100) as a function of the `value` argument
passed to `invoke`, with invoke(control, 0) setting 0.0. But
`nano_action_volume.action` reads the module-global `msg.value` instead of
its `value` parameter: with the global at 127, an invocation with
value = 0 and maxLevel = 100 sets the volume to 1.0, not 0.0. -/
theorem C3_volume_reads_global_msg :
    (nano_action.volume ⟨"Dev", 0⟩ 100).action ⟨[], [], []⟩ 127 41 0 =
      Except.ok (nano_action.volume ⟨"Dev", 0⟩ 100,
        [Effect.pactlVolumeSetAll "Dev" 1]) ∧
    (nano_action.volume ⟨"Dev", 0⟩ 100).action ⟨[], [], []⟩ 127 41 0 ≠
      Except.ok (nano_action.volume ⟨"Dev", 0⟩ 100,
        [Effect.pactlVolumeSetAll "Dev" 0]) := by
  constructor
  · simp only [nano_action.action]
    norm_num
  · simp only [nano_action.action]
    intro h
    simp only [Except.ok.injEq, Prod.mk.injEq, List.cons.injEq,
      Effect.pactlVolumeSetAll.injEq] at h
    have h2 := h.2.1.2
    norm_num at h2

/-- C4: a ToggleMute invocation with value 127 flips the stored mute state,
updates the LED to the new state and pushes the new state to the mixer; any
invocation with value < 127 changes nothing and has no effect; and from a
0/1 starting state, any sequence of invocations containing an even number
of value-127 presses (arbitrary other values interleaved) restores the
original stored state. -/
theorem C4_toggle_mute (w : World) (mv : Nat) (dev : PADevice) (m key v : Nat) :
    ((nano_action.mute dev m).action w mv key 127 =
      Except.ok (nano_action.mute dev (if m = 0 then 1 else 0),
        set_led key (if m = 0 then 1 else 0) ++
          [Effect.pactlMute dev.name (if m = 0 then 1 else 0)])) ∧
    (v < 127 → (nano_action.mute dev m).action w mv key v =
      Except.ok (nano_action.mute dev m, [])) ∧
    (m ≤ 1 → ∀ vs : List Nat, vs.count 127 % 2 = 0 →
      muteSeq w mv dev key m vs = m) := by
  refine ⟨by simp [nano_action.action], fun hv => ?_, fun hm vs heven => ?_⟩
  · simp [nano_action.action, Nat.ne_of_lt hv]
  · rw [muteSeq_eval w mv dev key m hm vs, if_pos heven]

/-- Closed instance of C4: starting unmuted, pressing (127), half-pressing
(64), pressing (127) again restores the unmuted state, and the half-press
alone changes nothing. -/
theorem C4_toggle_mute_witness :
    (nano_action.mute ⟨"Dev", 0⟩ 0).action ⟨[], [], []⟩ 0 41 127 =
      Except.ok (nano_action.mute ⟨"Dev", 0⟩ (if 0 = 0 then 1 else 0),
        set_led 41 (if 0 = 0 then 1 else 0) ++
          [Effect.pactlMute "Dev" (if 0 = 0 then 1 else 0)]) ∧
    (nano_action.mute ⟨"Dev", 0⟩ 0).action ⟨[], [], []⟩ 0 41 64 =
      Except.ok (nano_action.mute ⟨"Dev", 0⟩ 0, []) ∧
    muteSeq ⟨[], [], []⟩ 0 ⟨"Dev", 0⟩ 41 0 [127, 64, 127] = 0 := by
  have h := C4_toggle_mute ⟨[], [], []⟩ 0 ⟨"Dev", 0⟩ 0 41 64
  exact ⟨h.1, h.2.1 (by decide), h.2.2 (by decide) [127, 64, 127] (by decide)⟩

/-- C5: for MIDI values 0..127 the EmitKey action writes key state 1 exactly
when the truncated division value/126 is nonzero, i.e. iff value is at
least 126; and the invocation emits the key event, then updates the LED
with the raw value, then syncs the input batch, in that order. -/
theorem C5_evdev_action (w : World) (mv code key v : Nat) (hv : v ≤ 127) :
    (nano_action.evdev code).action w mv key v =
      Except.ok (nano_action.evdev code,
        Effect.uinputWrite code (if 126 ≤ v then 1 else 0) ::
          (set_led key v ++ [Effect.uinputSyn])) ∧
    (v / 126 ≠ 0 ↔ 126 ≤ v) := by
  have hdiv : v / 126 = if 126 ≤ v then 1 else 0 := by
    split <;> omega
  exact ⟨by simp [nano_action.action, hdiv], by omega⟩

/-- Closed instance of C5 at v = 127 (pressed) for the PLAY control. -/
theorem C5_evdev_action_witness :
    (nano_action.evdev 30).action ⟨[], [], []⟩ 127 41 127 =
      Except.ok (nano_action.evdev 30,
        Effect.uinputWrite 30 (if 126 ≤ 127 then 1 else 0) ::
          (set_led 41 127 ++ [Effect.uinputSyn])) ∧
    ((127 : Nat) / 126 ≠ 0 ↔ 126 ≤ 127) :=
  C5_evdev_action ⟨[], [], []⟩ 127 30 41 127 (by decide)

/-- C6: `set_led` on a control outside the LED-capable set sends no message
at all; on an LED-capable control it sends exactly one feedback message,
with value 127 (maximum brightness) iff the value is positive and 0
otherwise. -/
theorem C6_set_led_spec (c v : Nat) :
    (c ∉ led_support → set_led c v = []) ∧
    (c ∈ led_support →
      set_led c v = [Effect.midiSend c (if v > 0 then 127 else 0)]) := by
  constructor
  · intro h; simp [set_led, h]
  · intro h; simp [set_led, h]

/-- Closed instance of C6: a slider (control 0) gets no message; the PLAY
button (control 41) gets one on-message for a positive value. -/
theorem C6_set_led_spec_witness :
    set_led 0 5 = [] ∧
    set_led 41 5 = [Effect.midiSend 41 (if 5 > 0 then 127 else 0)] :=
  ⟨(C6_set_led_spec 0 5).1 (by decide), (C6_set_led_spec 41 5).2 (by decide)⟩

theorem filterMap_youtube (l : List PAStream) :
    l.filterMap get_youtube_streams_index =
      (l.filter fun s => endswith s.name "- YouTube").map PAStream.index := by
  induction l with
  | nil => rfl
  | cons s rest ih =>
      by_cases h : endswith s.name "- YouTube" <;>
        simp [get_youtube_streams_index, h, ih]

theorem filterMap_youtube_music (l : List PAStream) :
    l.filterMap get_youtube_music_streams_index =
      (l.filter fun s => endswith s.name "YouTube Music").map PAStream.index := by
  induction l with
  | nil => rfl
  | cons s rest ih =>
      by_cases h : endswith s.name "YouTube Music" <;>
        simp [get_youtube_music_streams_index, h, ih]

/-- C9 (amended): in list-streams mode a stream index is printed in the
YouTube list iff the stream name ends with "- YouTube" (not the bare
suffix "YouTube" the claim states), in the YouTube Music list iff the name
ends with "YouTube Music", and the mode exits with status 0. -/
theorem C9_list_streams_amended (w : World) :
    (list_streams_mode w).1 =
      (w.sinkInputs.filter fun s => endswith s.name "- YouTube").map
        PAStream.index ∧
    (list_streams_mode w).2.1 =
      (w.sinkInputs.filter fun s => endswith s.name "YouTube Music").map
        PAStream.index ∧
    (list_streams_mode w).2.2 = 0 := by
  refine ⟨?_, ?_, rfl⟩ <;>
    simp [list_streams_mode, List.filterMap_map, Function.id_comp,
      filterMap_youtube, filterMap_youtube_music]

/-- C9 counterexample: a stream named "MyYouTube" ends with "YouTube", yet
list-streams mode prints no index for it in the YouTube list. -/
theorem C9_list_streams_counterexample :
    endswith "MyYouTube" "YouTube" = true ∧
    (list_streams_mode ⟨[], [], [⟨3, "MyYouTube"⟩]⟩).1 = [] := by
  constructor <;> decide

theorem processKeymap_append (ad : List (String × PADevice))
    (sid : List (String × PAStream)) (ec : List (String × Nat))
    (l1 l2 : List (String × String)) (st : ParseState) :
    processKeymap ad sid ec (l1 ++ l2) st =
      (match processKeymap ad sid ec l1 st with
       | Except.error e => Except.error e
       | Except.ok st2 => processKeymap ad sid ec l2 st2) := by
  induction l1 generalizing st with
  | nil => simp [processKeymap]
  | cons e rest ih =>
    simp only [List.cons_append, processKeymap]
    cases parse_entry ad sid ec st e with
    | error err => rfl
    | ok st2 => exact ih st2

/-- C2 (amended): partial success holds for `volumestr` entries: a
volumestr entry whose stream alias did not resolve is skipped with a
warning and every other entry of the keymap is processed exactly as if the
failing entry were absent. (As stated, the claim fails for mute and volume
entries: an unresolved device alias there raises KeyError and aborts the
whole build; see the counterexample.) -/
theorem C2_partial_build_amended (ad : List (String × PADevice))
    (sid : List (String × PAStream)) (ec : List (String × Nat))
    (keyname desc al al0 : String) (kc : Nat)
    (m : List (Nat × nano_action)) (lg : List Effect)
    (l1 l2 : List (String × String))
    (hk : dictGet keyname nano_keys = some kc)
    (hd : splitFirst '/' desc = ("volumestr", some al))
    (ha : splitFirst '/' al = (al0, none))
    (hs : dictGet al sid = none) :
    parse_entry ad sid ec (m, lg) (keyname, desc) =
      Except.ok (m, lg ++
        [Effect.logWarning ("parse_config: Unknown stream " ++ al)]) ∧
    processKeymap ad sid ec (l1 ++ (keyname, desc) :: l2) (m, lg) =
      (match processKeymap ad sid ec l1 (m, lg) with
       | Except.error e => Except.error e
       | Except.ok st2 => processKeymap ad sid ec l2
           (st2.1, st2.2 ++
             [Effect.logWarning ("parse_config: Unknown stream " ++ al)])) := by
  have hskip : ∀ st : ParseState,
      parse_entry ad sid ec st (keyname, desc) =
        Except.ok (st.1, st.2 ++
          [Effect.logWarning ("parse_config: Unknown stream " ++ al)]) := by
    intro st
    simp [parse_entry, hk, hd, ha, hs]
  refine ⟨hskip (m, lg), ?_⟩
  rw [processKeymap_append]
  cases hpk : processKeymap ad sid ec l1 (m, lg) with
  | error e => rfl
  | ok st2 => simp only [processKeymap, hskip st2]

/-- Closed instance of C2 (amended) for the entry PLAY = volumestr/yt with
no live stream resolving the alias yt. -/
theorem C2_partial_build_amended_witness :
    parse_entry [] [] [] ([], []) ("PLAY", "volumestr/yt") =
      Except.ok ([], [] ++
        [Effect.logWarning ("parse_config: Unknown stream " ++ "yt")]) ∧
    processKeymap [] [] [] ([] ++ ("PLAY", "volumestr/yt") :: []) ([], []) =
      (match processKeymap [] [] [] [] (([] : List (Nat × nano_action)),
          ([] : List Effect)) with
       | Except.error e => Except.error e
       | Except.ok st2 => processKeymap [] [] [] []
           (st2.1, st2.2 ++
             [Effect.logWarning ("parse_config: Unknown stream " ++ "yt")])) :=
  C2_partial_build_amended [] [] [] "PLAY" "volumestr/yt" "yt" "yt" 41 [] []
    [] [] (by decide) (by decide) (by decide) (by decide)

/-- C2 counterexample: a readable config whose keymap holds a mute entry
with an unresolvable device alias and a perfectly valid key entry: the
build does not complete with the valid entry, it raises KeyError. -/
theorem C2_counterexample :
    parse_config
      ⟨true, [("audiooutputs", [("d", "DevName")]),
              ("keymap", [("PLAY", "mute/d"), ("STOP", "KEY_A")])]⟩
      [("KEY_A", 30)] ⟨[], [], []⟩ = Except.error PyError.keyError := by decide

/-- C7 (amended): an unreadable config or one with no keymap section yields
no table (the modelled ConfigError return, with an error log); and an entry
whose control name is unknown to the static enumeration is logged and
skipped, the rest of the keymap processed exactly as if it were absent. (As
universally stated over all readable keymap configs, the claim fails: a
mute or volume entry with an unresolved device alias makes the build raise
instead of returning a table; see the counterexample.) -/
theorem C7_config_compiler_amended (cfg : IniConfig) (ec : List (String × Nat))
    (w : World) (ad : List (String × PADevice)) (sid : List (String × PAStream))
    (keyname desc : String) (m : List (Nat × nano_action)) (lg : List Effect)
    (l1 l2 : List (String × String)) :
    (cfg.readOk = false →
      parse_config cfg ec w = Except.ok (none,
        [Effect.logError "parse_config: Failed to load config file"])) ∧
    (cfg.readOk = true → ("keymap" ∈ cfg.sectionNames) = false →
      parse_config cfg ec w = Except.ok (none,
        [Effect.logError "parse_config: Config has no keymap section"])) ∧
    (dictGet keyname nano_keys = none →
      parse_entry ad sid ec (m, lg) (keyname, desc) =
        Except.ok (m, lg ++
          [Effect.logWarning ("parse_config: No such key " ++ keyname)]) ∧
      processKeymap ad sid ec (l1 ++ (keyname, desc) :: l2) (m, lg) =
        (match processKeymap ad sid ec l1 (m, lg) with
         | Except.error e => Except.error e
         | Except.ok st2 => processKeymap ad sid ec l2
             (st2.1, st2.2 ++
               [Effect.logWarning ("parse_config: No such key " ++ keyname)]))) := by
  refine ⟨fun h => by simp [parse_config, h], fun h1 h2 => ?_, fun hk => ?_⟩
  · simp [parse_config, h1, h2]
  · have hskip : ∀ st : ParseState,
        parse_entry ad sid ec st (keyname, desc) =
          Except.ok (st.1, st.2 ++
            [Effect.logWarning ("parse_config: No such key " ++ keyname)]) := by
      intro st
      simp [parse_entry, hk]
    refine ⟨hskip (m, lg), ?_⟩
    rw [processKeymap_append]
    cases hpk : processKeymap ad sid ec l1 (m, lg) with
    | error e => rfl
    | ok st2 => simp only [processKeymap, hskip st2]

/-- Closed instance of C7 (amended): an unreadable config, a readable
config without a keymap section, and an unknown control name NOPE in an
otherwise empty environment. -/
theorem C7_config_compiler_amended_witness :
    parse_config ⟨false, []⟩ [] ⟨[], [], []⟩ = Except.ok (none,
      [Effect.logError "parse_config: Failed to load config file"]) ∧
    parse_config ⟨true, []⟩ [] ⟨[], [], []⟩ = Except.ok (none,
      [Effect.logError "parse_config: Config has no keymap section"]) ∧
    (parse_entry [] [] [] ([], []) ("NOPE", "KEY_A") =
      Except.ok ([], [] ++
        [Effect.logWarning ("parse_config: No such key " ++ "NOPE")]) ∧
     processKeymap [] [] [] ([] ++ ("NOPE", "KEY_A") :: []) ([], []) =
      (match processKeymap [] [] [] [] (([] : List (Nat × nano_action)),
          ([] : List Effect)) with
       | Except.error e => Except.error e
       | Except.ok st2 => processKeymap [] [] [] []
           (st2.1, st2.2 ++
             [Effect.logWarning ("parse_config: No such key " ++ "NOPE")]))) :=
  ⟨(C7_config_compiler_amended ⟨false, []⟩ [] ⟨[], [], []⟩ [] [] "NOPE" "KEY_A"
      [] [] [] []).1 rfl,
   (C7_config_compiler_amended ⟨true, []⟩ [] ⟨[], [], []⟩ [] [] "NOPE" "KEY_A"
      [] [] [] []).2.1 rfl (by decide),
   (C7_config_compiler_amended ⟨true, []⟩ [] ⟨[], [], []⟩ [] [] "NOPE" "KEY_A"
      [] [] [] []).2.2 (by decide)⟩

/-- C7 counterexample: a readable config with a keymap section whose single
entry is a mute action on an unresolvable device alias: instead of
returning a table, the build raises KeyError. -/
theorem C7_counterexample :
    parse_config ⟨true, [("keymap", [("PLAY", "mute/d")])]⟩ [] ⟨[], [], []⟩ =
      Except.error PyError.keyError := by decide

/-- C8 (code bug): the keymap entry PLAY = volumestr/yt/150 with a live
stream resolving the alias yt should, per the claim, bind a stream-volume
action with max level 150; the code's volumestr branch only handles the
no-max-level shape and silently falls through, returning an empty table
with no log line at all. -/
theorem C8_volumestr_maxlevel_dropped :
    parse_config
      ⟨true, [("streams", [("yt", "- YouTube")]),
              ("keymap", [("PLAY", "volumestr/yt/150")])]⟩ []
      ⟨[], [], [⟨5, "Firefox - YouTube"⟩]⟩ =
      Except.ok (some [], []) := by decide

/-- C1 (amended): when a mapped action's invocation raises, the loop catches
it, logs a warning and synchronously rebuilds the table by re-running
parse_config against the current mixer inventory before the next event, and
subsequent events are dispatched against whatever that rebuild returned —
provided the rebuild itself returns rather than raises. (As stated over
sequences where the rebuild itself fails, the claim is false: an exception
escaping parse_config during the rebuild crashes the loop; see the
counterexample.) -/
theorem C1_dispatch_rebuild_amended (cfg : IniConfig) (ec : List (String × Nat))
    (w : World) (t : List (Nat × nano_action)) (c v : Nat) (a : nano_action)
    (err : PyError) (t2 : Option (List (Nat × nano_action))) (logs : List Effect)
    (rest : List (World × MidiMsg))
    (h1 : dictGet c t = some a)
    (h2 : a.action w v c v = Except.error err)
    (h3 : parse_config cfg ec w = Except.ok (t2, logs)) :
    loopStep cfg ec w (some t) (MidiMsg.control_change c v) =
      Except.ok (t2, Effect.logWarning
        "No stream found... reparse config to get the new ones... " :: logs) ∧
    runLoop cfg ec (some t) ((w, MidiMsg.control_change c v) :: rest) =
      runLoop cfg ec t2 rest := by
  have hstep : loopStep cfg ec w (some t) (MidiMsg.control_change c v) =
      Except.ok (t2, Effect.logWarning
        "No stream found... reparse config to get the new ones... " :: logs) := by
    simp [loopStep, h1, h2, h3]
  exact ⟨hstep, by simp [runLoop, hstep]⟩

/-- Closed instance of C1 (amended): a table holding one stream-volume
action whose stream has vanished; the invocation raises, the rebuild
succeeds (returning an empty table with two warnings), and the loop
continues with the rebuilt table. -/
theorem C1_dispatch_rebuild_amended_witness :
    loopStep ⟨true, [("streams", [("yt", "- YouTube")]),
        ("keymap", [("STOP", "volumestr/yt")])]⟩ [] ⟨[], [], []⟩
      (some [(42, nano_action.volumestr ⟨5, "Firefox - YouTube"⟩ 100)])
      (MidiMsg.control_change 42 100) =
      Except.ok (some [], Effect.logWarning
        "No stream found... reparse config to get the new ones... " ::
        [Effect.logWarning "get_sink_inputs: No streams found",
         Effect.logWarning "parse_config: Unknown stream yt"]) ∧
    runLoop ⟨true, [("streams", [("yt", "- YouTube")]),
        ("keymap", [("STOP", "volumestr/yt")])]⟩ []
      (some [(42, nano_action.volumestr ⟨5, "Firefox - YouTube"⟩ 100)])
      [(⟨[], [], []⟩, MidiMsg.control_change 42 100)] =
      runLoop ⟨true, [("streams", [("yt", "- YouTube")]),
        ("keymap", [("STOP", "volumestr/yt")])]⟩ [] (some []) [] :=
  C1_dispatch_rebuild_amended
    ⟨true, [("streams", [("yt", "- YouTube")]),
        ("keymap", [("STOP", "volumestr/yt")])]⟩ [] ⟨[], [], []⟩
    [(42, nano_action.volumestr ⟨5, "Firefox - YouTube"⟩ 100)] 42 100
    (nano_action.volumestr ⟨5, "Firefox - YouTube"⟩ 100) PyError.pulseError
    (some [])
    [Effect.logWarning "get_sink_inputs: No streams found",
     Effect.logWarning "parse_config: Unknown stream yt"] []
    (by decide) (by decide) (by decide)

/-- C1 counterexample: startup resolves a device and a stream; both vanish;
the third component of the claim ("this holds ... including when the
rebuild itself fails") is false: the failing invocation triggers a rebuild
whose mute entry raises KeyError, which escapes the loop and crashes the
program instead of being caught. -/
theorem C1_counterexample :
    nanoKontrollerMain
      ⟨true, [("audiooutputs", [("d", "DevName")]),
              ("streams", [("yt", "- YouTube")]),
              ("keymap", [("PLAY", "mute/d"), ("STOP", "volumestr/yt")])]⟩
      []
      ⟨[⟨"DevName", 0⟩], [], [⟨5, "Firefox - YouTube"⟩]⟩
      [(⟨[], [], []⟩, MidiMsg.control_change 42 100)] =
      Except.error PyError.keyError := by decide

theorem fmtFill_bad (key value : Nat) (items : List FmtItem) (nm : String)
    (hmem : FmtItem.field nm ∈ items) (h1 : nm ≠ "NK_KEY_ID")
    (h2 : nm ≠ "NK_KEY_VALUE") :
    fmtFill key value items = none := by
  induction items with
  | nil => cases hmem
  | cons it rest ih =>
    rcases List.mem_cons.1 hmem with h | h
    · subst h
      simp [fmtFill, fmtSubst, h1, h2]
    · cases hsub : fmtSubst key value it <;> simp [fmtFill, hsub, ih h]

/-- C10: an Exec template that is malformed (unmatched brace) or contains a
replacement field other than NK_KEY_ID or NK_KEY_VALUE makes every
invocation raise during formatting — the error return carries no
subprocess call, so nothing is ever executed — and inside the dispatch
loop such an entry takes the warning-and-rebuild path on every press. -/
theorem C10_exec_bad_template (cmd : String) (w : World)
    (mv key value : Nat) (cfg : IniConfig) (ec : List (String × Nat))
    (t : List (Nat × nano_action)) (c v : Nat) :
    (fmtParseNormal cmd.toList = none →
      (nano_action.exec cmd).action w mv key value =
        Except.error PyError.valueError) ∧
    (∀ items nm, fmtParseNormal cmd.toList = some items →
      FmtItem.field nm ∈ items → nm ≠ "NK_KEY_ID" → nm ≠ "NK_KEY_VALUE" →
      (nano_action.exec cmd).action w mv key value =
        Except.error PyError.keyError) ∧
    (∀ perr, dictGet c t = some (nano_action.exec cmd) →
      (nano_action.exec cmd).action w v c v = Except.error perr →
      loopStep cfg ec w (some t) (MidiMsg.control_change c v) =
        (match parse_config cfg ec w with
         | Except.error e => Except.error e
         | Except.ok res =>
             Except.ok (res.1, Effect.logWarning
               "No stream found... reparse config to get the new ones... "
               :: res.2))) := by
  refine ⟨fun hp => ?_, fun items nm hp hmem h1 h2 => ?_,
    fun perr hl ha => ?_⟩
  · have hp2 : fmtParseNormal cmd.data = none := hp
    simp [nano_action.action, pyFormat, hp2]
  · have hp2 : fmtParseNormal cmd.data = some items := hp
    simp [nano_action.action, pyFormat, hp2,
      fmtFill_bad key value items nm hmem h1 h2]
  · simp [loopStep, hl, ha]

/-- Closed instance of C10: the templates "echo \x7bunclosed" (unmatched
brace) and "echo \x7bfoo\x7d" (unknown field) both raise without any
subprocess call, and a table entry holding the latter takes the
rebuild path on a press. -/
theorem C10_exec_bad_template_witness :
    (nano_action.exec "echo \x7bunclosed").action ⟨[], [], []⟩ 0 44 100 =
      Except.error PyError.valueError ∧
    (nano_action.exec "echo \x7bfoo\x7d").action ⟨[], [], []⟩ 0 44 100 =
      Except.error PyError.keyError ∧
    loopStep ⟨false, []⟩ [] ⟨[], [], []⟩
        (some [(44, nano_action.exec "echo \x7bfoo\x7d")])
        (MidiMsg.control_change 44 100) =
      (match parse_config ⟨false, []⟩ [] ⟨[], [], []⟩ with
       | Except.error e => Except.error e
       | Except.ok res =>
           Except.ok (res.1, Effect.logWarning
             "No stream found... reparse config to get the new ones... "
             :: res.2)) :=
  ⟨(C10_exec_bad_template "echo \x7bunclosed" ⟨[], [], []⟩ 0 44 100
      ⟨false, []⟩ [] [] 44 100).1 (by decide),
   (C10_exec_bad_template "echo \x7bfoo\x7d" ⟨[], [], []⟩ 0 44 100
      ⟨false, []⟩ [] [] 44 100).2.1
     [FmtItem.lit 'e', FmtItem.lit 'c', FmtItem.lit 'h', FmtItem.lit 'o',
      FmtItem.lit ' ', FmtItem.field "foo"] "foo"
     (by decide) (by decide) (by decide) (by decide),
   (C10_exec_bad_template "echo \x7bfoo\x7d" ⟨[], [], []⟩ 100 44 100
      ⟨false, []⟩ [] [(44, nano_action.exec "echo \x7bfoo\x7d")] 44 100).2.2
     PyError.keyError (by decide) (by decide)⟩
